import Mathlib

/-!
Verification development for the sensor_monitor telemetry bridge.

The Rust sources (src/mqtt.rs, src/hem.rs, src/config.rs, src/main.rs) are shallowly
embedded below.  External collaborators are modelled at their boundary:

* the blocking HTTP client is an oracle `post : Measurement -> Option e` giving, for
  each measurement write, `none` (the call succeeded) or `some e` (the call failed
  with error `e`); functions that issue writes additionally return the ordered list
  of write calls actually issued, so that partial success is observable;
* the remote store's device/sensor collections are explicit lists, and the effect of
  a `POST` create is an oracle `create : state -> payload -> state x response`;
  the resolver's unbounded recursion is made total with a fuel parameter
  (`none` = fuel exhausted, corresponding to a store that never reflects the create);
* `serde_json` text parsing is modelled at its boundary: a raw MQTT payload is either
  not valid UTF-8, valid UTF-8 but not well-formed JSON, or a parsed JSON document;
  the serde-derived field decoding of `SensorEntry` (and of `TopicConfig`) is
  embedded structurally over the JSON document model.

`f32` measurement values are carried through verbatim by the program (no arithmetic
is performed on them), so they are modelled as `Rat`; `i32` identifiers are modelled
as `Int` (no identifier arithmetic occurs, so no overflow reduction is needed).
-/

/-- Rust `type DeviceId = i32` (hem.rs). -/
abbrev DeviceId := Int

/-- Rust `struct SensorIds` (hem.rs): the four resolved sensor identifiers. -/
structure SensorIds where
  ds18b20 : Int
  dht11_temperature : Int
  dht11_humidity : Int
  dht11_dew_point : Int
deriving DecidableEq

/-- Rust `struct Measurement` (mqtt.rs): one (device, sensor, value) write. -/
structure Measurement where
  device : Int
  sensor : Int
  measurement : Rat
deriving DecidableEq

/-- Rust `Measurement::new` (mqtt.rs). -/
def Measurement.new (device sensor : Int) (measurement : Rat) : Measurement :=
  { device := device, sensor := sensor, measurement := measurement }

/-- Rust `struct DS18B20` (mqtt.rs): probe sub-reading. -/
structure DS18B20 where
  _id : String
  temperature : Rat
deriving DecidableEq

/-- Rust `struct DHT11` (mqtt.rs): combined sub-reading. -/
structure DHT11 where
  temperature : Rat
  humidity : Rat
  dew_point : Rat
deriving DecidableEq

/-- Rust `struct SensorEntry` (mqtt.rs): decoded message content.  The `Time`
field is deserialized by chrono from a string; the program never inspects it, so
it is kept as the raw string here. -/
structure SensorEntry where
  _time : String
  ds18b20 : Option DS18B20
  dht11 : Option DHT11
  _temp_unit : String
deriving DecidableEq

/-- JSON document model (the data model of `serde_json::Value`, also used for the
TOML tables deserialized by the same serde derives in config.rs). -/
inductive Json where
  | null
  | bool (b : Bool)
  | num (n : Rat)
  | str (s : String)
  | arr (elems : List Json)
  | obj (fields : List (String × Json))

/-- serde: decode a JSON value as a `String` field. -/
def Json.asString : Json → Option String
  | .str s => some s
  | _ => none

/-- serde: decode a JSON value as an `f32` field (any JSON number). -/
def Json.asNum : Json → Option Rat
  | .num n => some n
  | _ => none

/-- serde derive for `DS18B20` with `rename_all = PascalCase` and `rename = Id`
(mqtt.rs): requires fields `Id` (string) and `Temperature` (number). -/
def DS18B20.fromJson : Json → Option DS18B20
  | .obj fields => do
    let i ← (fields.lookup "Id").bind Json.asString
    let temperature ← (fields.lookup "Temperature").bind Json.asNum
    some { _id := i, temperature := temperature }
  | _ => none

/-- serde derive for `DHT11` with `rename_all = PascalCase` (mqtt.rs): requires
fields `Temperature`, `Humidity`, `DewPoint` (numbers). -/
def DHT11.fromJson : Json → Option DHT11
  | .obj fields => do
    let temperature ← (fields.lookup "Temperature").bind Json.asNum
    let humidity ← (fields.lookup "Humidity").bind Json.asNum
    let dew_point ← (fields.lookup "DewPoint").bind Json.asNum
    some { temperature := temperature, humidity := humidity, dew_point := dew_point }
  | _ => none

/-- serde semantics of an `Option<T>` struct field: absent key or JSON null give
`none`; a present non-null value must decode as `T` or the whole decode fails. -/
def decodeOptionField (fields : List (String × Json)) (key : String)
    (dec : Json → Option α) : Option (Option α) :=
  match fields.lookup key with
  | none => some none
  | some .null => some none
  | some j => (dec j).map some

/-- serde derive for `SensorEntry` (mqtt.rs): requires `Time` (string, kept raw)
and `TempUnit` (string); `DS18B20` and `DHT11` are optional sub-objects; unknown
fields are ignored (serde default). -/
def SensorEntry.fromJson : Json → Option SensorEntry
  | .obj fields => do
    let time ← (fields.lookup "Time").bind Json.asString
    let ds18b20 ← decodeOptionField fields "DS18B20" DS18B20.fromJson
    let dht11 ← decodeOptionField fields "DHT11" DHT11.fromJson
    let tempUnit ← (fields.lookup "TempUnit").bind Json.asString
    some { _time := time, ds18b20 := ds18b20, dht11 := dht11, _temp_unit := tempUnit }
  | _ => none

/-- Boundary model of `serde_json::from_str` on the payload text: either the text
is not well-formed JSON, or it parses to a JSON document. -/
inductive JsonText where
  | notJson
  | json (j : Json)

/-- Boundary model of the raw MQTT payload bytes: either not valid UTF-8
(`String::from_utf8` fails), or a UTF-8 text together with its JSON parse
outcome. -/
inductive RawPayload where
  | notUtf8
  | utf8 (text : JsonText)

/-- `serde_json::from_str::<SensorEntry>` (mqtt.rs line 168): fails on text that
is not well-formed JSON or whose JSON shape does not decode as `SensorEntry`. -/
def parseSensorEntry : JsonText → Option SensorEntry
  | .notJson => none
  | .json j => SensorEntry.fromJson j

/-- True when decoding the payload fails (spec taxonomy `MalformedPayload`:
bytes that are not valid UTF-8 or not well-formed JSON of the expected shape). -/
def payloadMalformed : RawPayload → Bool
  | .notUtf8 => true
  | .utf8 t => (parseSensorEntry t).isNone

/-- Second half of `store_measurement` (mqtt.rs lines 125-137): the DS18B20
match.  `issued` is the list of write calls already issued by the DHT11 half. -/
def store_ds18b20 (post : Measurement → Option ε) (entry : SensorEntry)
    (device_id : DeviceId) (sensor_ids : SensorIds) (issued : List Measurement) :
    List Measurement × Option ε :=
  match entry.ds18b20 with
  | some ds18b20 =>
    let ds18b20_entry := Measurement.new device_id sensor_ids.ds18b20 ds18b20.temperature
    (issued ++ [ds18b20_entry], post ds18b20_entry)
  | none => (issued, none)

/-- Rust `store_measurement` (mqtt.rs lines 100-138).  The DHT11 sub-reading, if
present, yields three sequential write calls (temperature, humidity, dew point),
each propagating its error with `?`; then the DS18B20 sub-reading, if present,
yields one more.  The result is the ordered list of write calls actually issued
together with the outcome (`none` = `Ok(())`). -/
def store_measurement (post : Measurement → Option ε) (entry : SensorEntry)
    (device_id : DeviceId) (sensor_ids : SensorIds) : List Measurement × Option ε :=
  match entry.dht11 with
  | some dht11 =>
    let dht11_temperature :=
      Measurement.new device_id sensor_ids.dht11_temperature dht11.temperature
    let dht11_humidity :=
      Measurement.new device_id sensor_ids.dht11_humidity dht11.humidity
    let dht11_dew_point :=
      Measurement.new device_id sensor_ids.dht11_dew_point dht11.dew_point
    match post dht11_temperature with
    | some e => ([dht11_temperature], some e)
    | none =>
      match post dht11_humidity with
      | some e => ([dht11_temperature, dht11_humidity], some e)
      | none =>
        match post dht11_dew_point with
        | some e => ([dht11_temperature, dht11_humidity, dht11_dew_point], some e)
        | none =>
          store_ds18b20 post entry device_id sensor_ids
            [dht11_temperature, dht11_humidity, dht11_dew_point]
  | none => store_ds18b20 post entry device_id sensor_ids []

/-- Inbound MQTT packet (rumqttc `Packet`): a publish with topic and payload, or
any other packet kind, which `handle_incomming` only logs. -/
inductive Packet where
  | publish (topic : String) (payload : RawPayload)
  | other (desc : String)

/-- Error outcomes of `handle_incomming`.  The Rust function returns opaque
`anyhow::Error` values; they are classified here by their construction site,
following the spec's taxonomy: `malformedPayload` for the `String::from_utf8`
failure and the `serde_json` failure, `unroutedTopic` for the
`anyhow!("No device found for topic")` error, `httpError` for an error
propagated out of `store_measurement`. -/
inductive HandleError (ε : Type u) where
  | malformedPayload
  | unroutedTopic (topic : String)
  | httpError (e : ε)
deriving DecidableEq

/-- True exactly for the unrouted-topic error. -/
def HandleError.isUnroutedTopic : HandleError ε → Bool
  | .unroutedTopic _ => true
  | _ => false

/-- Rust `handle_incomming` (mqtt.rs lines 153-188).  On a publish packet: decode
the payload bytes as UTF-8 (`?` propagates the failure), look the topic up in
`topic_to_device` (absent topic errors), parse the text as a `SensorEntry`
(failure errors), then forward via `store_measurement`.  Non-publish packets are
logged and succeed.  Returns the issued write calls and the outcome. -/
def handle_incomming (post : Measurement → Option ε) (inc : Packet)
    (topic_to_device : List (String × DeviceId)) (sensor_ids : SensorIds) :
    List Measurement × Option (HandleError ε) :=
  match inc with
  | .publish topic rawPayload =>
    match rawPayload with
    | .notUtf8 => ([], some .malformedPayload)
    | .utf8 payload =>
      match topic_to_device.lookup topic with
      | none => ([], some (.unroutedTopic topic))
      | some device_id =>
        match parseSensorEntry payload with
        | some sensor =>
          let r := store_measurement post sensor device_id sensor_ids
          (r.1, r.2.map HandleError.httpError)
        | none => ([], some .malformedPayload)
  | .other _ => ([], none)

/-- rumqttc connection event: an incoming packet or an outgoing notification
(the latter is only logged). -/
inductive Event where
  | incoming (inc : Packet)
  | outgoing (out : String)

/-- Rust `handle_connection` (mqtt.rs lines 203-226): drain the connection's
item stream.  `Ok(Incoming)` items are processed by `handle_incomming`, whose
error terminates the loop via `?`; `Ok(Outgoing)` items are logged; `Err` items
(transport errors) are logged and the loop continues.  Returns all issued write
calls and the loop outcome. -/
def handle_connection (post : Measurement → Option ε)
    (items : List (Except γ Event)) (topic_to_device : List (String × DeviceId))
    (sensor_ids : SensorIds) : List Measurement × Option (HandleError ε) :=
  match items with
  | [] => ([], none)
  | .ok (.incoming inc) :: rest =>
    let r := handle_incomming post inc topic_to_device sensor_ids
    match r.2 with
    | some e => (r.1, some e)
    | none =>
      let rr := handle_connection post rest topic_to_device sensor_ids
      (r.1 ++ rr.1, rr.2)
  | .ok (.outgoing _) :: rest => handle_connection post rest topic_to_device sensor_ids
  | .error _ :: rest => handle_connection post rest topic_to_device sensor_ids

/-- Rust `struct Sensor` (hem.rs): remote sensor identity. -/
structure Sensor where
  id : Int
  name : String
  unit : String
deriving DecidableEq

/-- Rust `struct Device` (hem.rs): remote device identity. -/
structure Device where
  id : Int
  name : String
  location : String
deriving DecidableEq

/-- Rust `setup_sensor` (hem.rs lines 88-112).  The remote store's sensor
collection is the explicit state `sensors_st` (a successful `fetch_sensors`
returns it); the effect of the `POST` create is the oracle `create`, returning
the store's next state and the create response (whose body `setup_sensor`
ignores — the Rust code only logs `response`).  The Rust recursion is unbounded;
`fuel` bounds it here, `none` meaning the store never reflected the create
within `fuel` rounds.  On success the result is the returned id, the number of
create requests issued, and the store state after the call. -/
def setup_sensor (fuel : Nat)
    (create : List Sensor → String → String → List Sensor × Int)
    (sensors_st : List Sensor) (sensor_name sensor_unit : String) :
    Option (Int × Nat × List Sensor) :=
  match fuel with
  | 0 => none
  | fuel + 1 =>
    let sensors := sensors_st
    match sensors.find? (fun d => d.name == sensor_name) with
    | some d => some (d.id, 0, sensors_st)
    | none =>
      let posted := create sensors_st sensor_name sensor_unit
      (setup_sensor fuel create posted.1 sensor_name sensor_unit).map
        (fun r => (r.1, r.2.1 + 1, r.2.2))

/-- Rust `setup_sensors` (hem.rs lines 124-136): resolve the fixed catalog of
four sensors in order, threading the store state. -/
def setup_sensors (fuel : Nat)
    (create : List Sensor → String → String → List Sensor × Int)
    (sensors_st : List Sensor) : Option (SensorIds × List Sensor) := do
  let r1 ← setup_sensor fuel create sensors_st "DS18B20" "°C"
  let r2 ← setup_sensor fuel create r1.2.2 "DHT11 Temperature" "°C"
  let r3 ← setup_sensor fuel create r2.2.2 "DHT11 Humidity" "%"
  let r4 ← setup_sensor fuel create r3.2.2 "DHT11 Dew Point" "°C"
  some ({ ds18b20 := r1.1, dht11_temperature := r2.1,
          dht11_humidity := r3.1, dht11_dew_point := r4.1 }, r4.2.2)

/-- Rust `setup_device` (hem.rs lines 150-176): same get-or-create protocol as
`setup_sensor`, with uniqueness key (name, location) and the device collection
as store state. -/
def setup_device (fuel : Nat)
    (create : List Device → String → String → List Device × Int)
    (devices_st : List Device) (device_name device_location : String) :
    Option (Int × Nat × List Device) :=
  match fuel with
  | 0 => none
  | fuel + 1 =>
    let devices := devices_st
    match devices.find? (fun d => d.name == device_name && d.location == device_location) with
    | some d => some (d.id, 0, devices_st)
    | none =>
      let posted := create devices_st device_name device_location
      (setup_device fuel create posted.1 device_name device_location).map
        (fun r => (r.1, r.2.1 + 1, r.2.2))

/-- Rust `struct TopicConfig` (config.rs lines 46-51): one configuration entry. -/
structure TopicConfig where
  topic : String
  device_name : String
  device_location : String
deriving DecidableEq

/-- serde derive for `TopicConfig` (config.rs), over the TOML table data model
(shared with `Json`): each of the three fields must be present with a string
value; no further validation is performed. -/
def TopicConfig.fromToml : Json → Option TopicConfig
  | .obj fields => do
    let topic ← (fields.lookup "topic").bind Json.asString
    let device_name ← (fields.lookup "device_name").bind Json.asString
    let device_location ← (fields.lookup "device_location").bind Json.asString
    some { topic := topic, device_name := device_name, device_location := device_location }
  | _ => none

/-- Modelled from the spec: one entry of the device configuration list consumed
by `main` (main.rs reads `dev.name`, `dev.location`, `dev.topic` from
`crate::config::Config::devices`; the `Config` type itself is not among the
provided sources — spec section 6 describes each entry as name, location, and
subscription topic). -/
structure ConfigDevice where
  name : String
  location : String
  topic : String
deriving DecidableEq

/-- Modelled from the spec: the parsed configuration consumed by `main`, a
declarative list of device entries. -/
structure Config where
  devices : List ConfigDevice
deriving DecidableEq

/-- `HashMap::insert` semantics on the association-list model of
`topic_to_device`: overwrite the binding if the key is present, else add it. -/
def insertTopic (m : List (String × DeviceId)) (k : String) (v : DeviceId) :
    List (String × DeviceId) :=
  match m with
  | [] => [(k, v)]
  | (k0, v0) :: rest =>
    if k0 == k then (k, v) :: rest else (k0, v0) :: insertTopic rest k v

/-- The device loop of `main` (main.rs lines 158-170): for each configured
device, resolve its identity via `setup_device` (aborting on failure) and insert
its topic into `topic_to_device`.  The MQTT subscription performed in the same
loop is transport-side and not modelled. -/
def setup_topic_map (fuel : Nat)
    (create : List Device → String → String → List Device × Int)
    (devices_st : List Device) (topic_to_device : List (String × DeviceId)) :
    List ConfigDevice → Option (List (String × DeviceId) × List Device)
  | [] => some (topic_to_device, devices_st)
  | dev :: rest => do
    let r ← setup_device fuel create devices_st dev.name dev.location
    setup_topic_map fuel create r.2.2 (insertTopic topic_to_device dev.topic r.1) rest

/-- Error outcome of `main`, classified by construction site (main.rs):
failures of the sensor-catalog resolution, of a device resolution, the
`anyhow!("No devices configured in config file")` configuration error, and an
error propagated out of the dispatch loop. -/
inductive MainError (ε : Type u) where
  | sensorSetupFailed
  | deviceSetupFailed
  | noDevicesConfigured
  | dispatchError (e : HandleError ε)
deriving DecidableEq

/-- The post-configuration-load body of Rust `main` (main.rs lines 131-183):
resolve the sensor catalog once, run the device loop building `topic_to_device`,
fail with the configuration error if the map is empty, otherwise run
`handle_connection` over the connection's event stream.  Returns the issued
measurement writes (all of which come from `handle_connection`) and the process
outcome. -/
def main_run (fuel : Nat)
    (screate : List Sensor → String → String → List Sensor × Int)
    (dcreate : List Device → String → String → List Device × Int)
    (sensors_st : List Sensor) (devices_st : List Device)
    (cfg : Config) (post : Measurement → Option ε)
    (events : List (Except γ Event)) :
    List Measurement × Except (MainError ε) Unit :=
  match setup_sensors fuel screate sensors_st with
  | none => ([], .error .sensorSetupFailed)
  | some (sensor_ids, _) =>
    match setup_topic_map fuel dcreate devices_st [] cfg.devices with
    | none => ([], .error .deviceSetupFailed)
    | some (topic_to_device, _) =>
      if topic_to_device.isEmpty then
        ([], .error .noDevicesConfigured)
      else
        let r := handle_connection post events topic_to_device sensor_ids
        (r.1, match r.2 with
              | some e => .error (.dispatchError e)
              | none => .ok ())

/-- Claim C1: forwarding a reading with both sub-readings populated against a
routing entry for device id 42 and sensor ids ds18b20 = 1,
dht11_temperature = 2, dht11_humidity = 3, dht11_dew_point = 4, with every
write call succeeding, issues exactly four measurement writes, namely
(42,1,probeTemp), (42,2,combinedTemp), (42,3,combinedHumidity) and
(42,4,combinedDewPoint) (the code emits them in DHT11-first order; the claim's
list is matched as a multiset). -/
theorem C1_four_writes {ε : Type} (post : Measurement → Option ε)
    (idStr timeStr unitStr : String) (probeTemp combTemp combHum combDew : Rat)
    (hpost : ∀ m, post m = none) :
    ∃ issued,
      store_measurement post
        { _time := timeStr, ds18b20 := some { _id := idStr, temperature := probeTemp },
          dht11 := some { temperature := combTemp, humidity := combHum, dew_point := combDew },
          _temp_unit := unitStr }
        42 { ds18b20 := 1, dht11_temperature := 2, dht11_humidity := 3, dht11_dew_point := 4 }
        = (issued, none) ∧
      issued.length = 4 ∧
      issued.Perm [⟨42, 1, probeTemp⟩, ⟨42, 2, combTemp⟩, ⟨42, 3, combHum⟩, ⟨42, 4, combDew⟩] := by
  refine ⟨[⟨42, 2, combTemp⟩, ⟨42, 3, combHum⟩, ⟨42, 4, combDew⟩, ⟨42, 1, probeTemp⟩], ?_, rfl, ?_⟩
  · simp [store_measurement, store_ds18b20, Measurement.new, hpost]
  · have h := @List.perm_append_comm Measurement
      [⟨42, 2, combTemp⟩, ⟨42, 3, combHum⟩, ⟨42, 4, combDew⟩] [⟨42, 1, probeTemp⟩]
    simpa using h

/-- Witness for C1 at a concrete reading with the always-succeeding client. -/
theorem C1_four_writes_witness :
    ∃ issued,
      store_measurement (fun _ => (none : Option Unit))
        { _time := "2023-01-01T12:00:00", ds18b20 := some { _id := "x", temperature := 9 },
          dht11 := some { temperature := 21, humidity := 50, dew_point := 11 },
          _temp_unit := "C" }
        42 { ds18b20 := 1, dht11_temperature := 2, dht11_humidity := 3, dht11_dew_point := 4 }
        = (issued, none) ∧
      issued.length = 4 ∧
      issued.Perm [⟨42, 1, 9⟩, ⟨42, 2, 21⟩, ⟨42, 3, 50⟩, ⟨42, 4, 11⟩] :=
  C1_four_writes (fun _ => none) "x" "2023-01-01T12:00:00" "C" 9 21 50 11 (fun _ => rfl)

/-- Claim C6: a payload with only the probe sub-object decodes to a reading
with the probe field populated and the combined field absent; symmetrically
for a payload with only the combined sub-object; a payload with neither
sub-object still decodes successfully. -/
theorem C6_optional_subobjects (timeStr unitStr idStr : String)
    (probeTemp combTemp combHum combDew : Rat) :
    SensorEntry.fromJson (.obj [("Time", .str timeStr),
        ("DS18B20", .obj [("Id", .str idStr), ("Temperature", .num probeTemp)]),
        ("TempUnit", .str unitStr)])
      = some { _time := timeStr, ds18b20 := some { _id := idStr, temperature := probeTemp },
               dht11 := none, _temp_unit := unitStr } ∧
    SensorEntry.fromJson (.obj [("Time", .str timeStr),
        ("DHT11", .obj [("Temperature", .num combTemp), ("Humidity", .num combHum),
                        ("DewPoint", .num combDew)]),
        ("TempUnit", .str unitStr)])
      = some { _time := timeStr, ds18b20 := none,
               dht11 := some { temperature := combTemp, humidity := combHum, dew_point := combDew },
               _temp_unit := unitStr } ∧
    SensorEntry.fromJson (.obj [("Time", .str timeStr), ("TempUnit", .str unitStr)])
      = some { _time := timeStr, ds18b20 := none, dht11 := none, _temp_unit := unitStr } := by
  refine ⟨?_, ?_, ?_⟩ <;> rfl

/-- Claim C7: with both sub-readings populated the up-to-four writes are issued
as independent sequential calls; if the write call at position k of the issue
order fails with e while the earlier ones succeed, exactly the first k+1 calls
are issued (the earlier successes are not undone) and e is returned. -/
theorem C7_partial_failure {ε : Type} (post : Measurement → Option ε)
    (idStr timeStr unitStr : String) (probeTemp combTemp combHum combDew : Rat)
    (k : Nat) (e : ε) (hk : k < 4)
    (hsucc : ∀ i, i < k →
      post ([⟨42, 2, combTemp⟩, ⟨42, 3, combHum⟩, ⟨42, 4, combDew⟩,
             ⟨42, 1, probeTemp⟩].getD i ⟨0, 0, 0⟩) = none)
    (hfail : post ([⟨42, 2, combTemp⟩, ⟨42, 3, combHum⟩, ⟨42, 4, combDew⟩,
             ⟨42, 1, probeTemp⟩].getD k ⟨0, 0, 0⟩) = some e) :
    store_measurement post
      { _time := timeStr, ds18b20 := some { _id := idStr, temperature := probeTemp },
        dht11 := some { temperature := combTemp, humidity := combHum, dew_point := combDew },
        _temp_unit := unitStr }
      42 { ds18b20 := 1, dht11_temperature := 2, dht11_humidity := 3, dht11_dew_point := 4 }
      = ([⟨42, 2, combTemp⟩, ⟨42, 3, combHum⟩, ⟨42, 4, combDew⟩,
          ⟨42, 1, probeTemp⟩].take (k + 1), some e) := by
  interval_cases k
  · have hf : post ⟨42, 2, combTemp⟩ = some e := hfail
    simp [store_measurement, Measurement.new, hf]
  · have h0 : post ⟨42, 2, combTemp⟩ = none := hsucc 0 (by omega)
    have hf : post ⟨42, 3, combHum⟩ = some e := hfail
    simp [store_measurement, Measurement.new, h0, hf]
  · have h0 : post ⟨42, 2, combTemp⟩ = none := hsucc 0 (by omega)
    have h1 : post ⟨42, 3, combHum⟩ = none := hsucc 1 (by omega)
    have hf : post ⟨42, 4, combDew⟩ = some e := hfail
    simp [store_measurement, Measurement.new, h0, h1, hf]
  · have h0 : post ⟨42, 2, combTemp⟩ = none := hsucc 0 (by omega)
    have h1 : post ⟨42, 3, combHum⟩ = none := hsucc 1 (by omega)
    have h2 : post ⟨42, 4, combDew⟩ = none := hsucc 2 (by omega)
    have hf : post ⟨42, 1, probeTemp⟩ = some e := hfail
    simp [store_measurement, store_ds18b20, Measurement.new, h0, h1, h2, hf]

/-- Witness for C7: the client fails on the humidity write (position 1); the
temperature write stays issued, the dew-point and probe writes are never
issued, and the humidity error is returned. -/
theorem C7_partial_failure_witness :
    store_measurement (fun m => if m.sensor = 3 then some 7 else none)
      { _time := "t", ds18b20 := some { _id := "x", temperature := 9 },
        dht11 := some { temperature := 21, humidity := 50, dew_point := 11 },
        _temp_unit := "C" }
      42 { ds18b20 := 1, dht11_temperature := 2, dht11_humidity := 3, dht11_dew_point := 4 }
      = ([⟨42, 2, 21⟩, ⟨42, 3, 50⟩], some 7) :=
  C7_partial_failure (fun m => if m.sensor = 3 then some 7 else none)
    "x" "t" "C" 9 21 50 11 1 7 (by omega)
    (by intro i hi; interval_cases i; decide) (by decide)

/-- Counterexample to claim C4 as stated: a publish on a topic absent from the
routing table whose payload bytes are not valid UTF-8 does not fail with the
unrouted-topic error — the UTF-8 decode runs before the routing lookup, so the
error is classified MalformedPayload.  (Zero writes are still issued.) -/
theorem C4_counterexample :
    ([] : List (String × DeviceId)).lookup "tele/stue/SENSOR" = none ∧
    handle_incomming (fun _ => (none : Option Unit))
        (.publish "tele/stue/SENSOR" .notUtf8) [] ⟨1, 2, 3, 4⟩
      = ([], some .malformedPayload) ∧
    (HandleError.malformedPayload : HandleError Unit).isUnroutedTopic = false := by
  refine ⟨rfl, rfl, rfl⟩

/-- Claim C4 (amended): for every publish event whose topic has no routing-table
entry, processing issues zero writes and fails; the error is the distinguishable
unrouted-topic error whenever the payload bytes are valid UTF-8, and the
malformed-payload error otherwise (the UTF-8 check precedes the routing
lookup). -/
theorem C4_unrouted_topic {ε : Type} (post : Measurement → Option ε)
    (topic : String) (payload : RawPayload)
    (topic_to_device : List (String × DeviceId)) (sensor_ids : SensorIds)
    (h : topic_to_device.lookup topic = none) :
    handle_incomming post (.publish topic payload) topic_to_device sensor_ids
      = ([], match payload with
             | .notUtf8 => some .malformedPayload
             | .utf8 _ => some (.unroutedTopic topic)) := by
  cases payload with
  | notUtf8 => rfl
  | utf8 t => simp [handle_incomming, h]

/-- Witness for C4 (amended): a well-formed-UTF-8 publish on an unconfigured
topic against a one-entry routing table. -/
theorem C4_unrouted_topic_witness :
    handle_incomming (fun _ => (none : Option Unit))
        (.publish "tele/bad/SENSOR" (.utf8 .notJson)) [("tele/stue/SENSOR", 42)] ⟨1, 2, 3, 4⟩
      = ([], some (.unroutedTopic "tele/bad/SENSOR")) :=
  C4_unrouted_topic (fun _ => none) "tele/bad/SENSOR" (.utf8 .notJson)
    [("tele/stue/SENSOR", 42)] ⟨1, 2, 3, 4⟩ (by decide)

/-- Claim C5: for every publish event on a routed topic whose payload does not
decode (not valid UTF-8, not well-formed JSON such as the text "not json", or
JSON of the wrong shape), processing yields the malformed-payload error and
zero measurement writes. -/
theorem C5_malformed_payload {ε : Type} (post : Measurement → Option ε)
    (topic : String) (payload : RawPayload)
    (topic_to_device : List (String × DeviceId)) (sensor_ids : SensorIds)
    (device_id : DeviceId)
    (hroute : topic_to_device.lookup topic = some device_id)
    (hbad : payloadMalformed payload = true) :
    handle_incomming post (.publish topic payload) topic_to_device sensor_ids
      = ([], some .malformedPayload) := by
  cases payload with
  | notUtf8 => rfl
  | utf8 t =>
    have hparse : parseSensorEntry t = none := by
      simpa [payloadMalformed, Option.isNone_iff_eq_none] using hbad
    simp [handle_incomming, hroute, hparse]

/-- Witness for C5: the payload text "not json" (valid UTF-8, not well-formed
JSON) on a routed topic. -/
theorem C5_malformed_payload_witness :
    handle_incomming (fun _ => (none : Option Unit))
        (.publish "tele/stue/SENSOR" (.utf8 .notJson)) [("tele/stue/SENSOR", 42)] ⟨1, 2, 3, 4⟩
      = ([], some .malformedPayload) :=
  C5_malformed_payload (fun _ => none) "tele/stue/SENSOR" (.utf8 .notJson)
    [("tele/stue/SENSOR", 42)] ⟨1, 2, 3, 4⟩ 42 (by decide) (by decide)

/-- Claim C2: the get-or-create resolution, for sensors (uniqueness key: name)
and for devices (uniqueness key: (name, location)).  On a hit the resolver
returns the matched entry's identifier with zero create requests and the store
untouched; on a miss it issues exactly one create request and then re-invokes
the same fetch-and-scan resolution on the post-create store — the returned
identifier comes from that re-resolution, never from the create response
(whose value `(create ..).2` does not occur in the result). -/
theorem C2_resolution_protocol
    (screate : List Sensor → String → String → List Sensor × Int)
    (dcreate : List Device → String → String → List Device × Int) :
    (∀ (fuel : Nat) (st : List Sensor) (sensor_name sensor_unit : String) (d : Sensor),
       st.find? (fun s => s.name == sensor_name) = some d →
       setup_sensor (fuel + 1) screate st sensor_name sensor_unit = some (d.id, 0, st)) ∧
    (∀ (fuel : Nat) (st : List Sensor) (sensor_name sensor_unit : String),
       st.find? (fun s => s.name == sensor_name) = none →
       setup_sensor (fuel + 1) screate st sensor_name sensor_unit =
         (setup_sensor fuel screate (screate st sensor_name sensor_unit).1
             sensor_name sensor_unit).map
           (fun r => (r.1, r.2.1 + 1, r.2.2))) ∧
    (∀ (fuel : Nat) (st : List Device) (device_name device_location : String) (d : Device),
       st.find? (fun x => x.name == device_name && x.location == device_location) = some d →
       setup_device (fuel + 1) dcreate st device_name device_location = some (d.id, 0, st)) ∧
    (∀ (fuel : Nat) (st : List Device) (device_name device_location : String),
       st.find? (fun x => x.name == device_name && x.location == device_location) = none →
       setup_device (fuel + 1) dcreate st device_name device_location =
         (setup_device fuel dcreate (dcreate st device_name device_location).1
             device_name device_location).map
           (fun r => (r.1, r.2.1 + 1, r.2.2))) := by
  refine ⟨?_, ?_, ?_, ?_⟩
  · intro fuel st sensor_name sensor_unit d h
    simp [setup_sensor, h]
  · intro fuel st sensor_name sensor_unit h
    simp [setup_sensor, h]
  · intro fuel st device_name device_location d h
    simp [setup_device, h]
  · intro fuel st device_name device_location h
    simp [setup_device, h]

/-- Witness for C2: a hit on a one-sensor store returns its id with no create;
a miss on the empty store issues one create and re-resolves. -/
theorem C2_resolution_protocol_witness :
    setup_sensor 1 (fun st n u => (st ++ [⟨9, n, u⟩], 9)) [⟨5, "DS18B20", "°C"⟩] "DS18B20" "°C"
      = some (5, 0, [⟨5, "DS18B20", "°C"⟩]) ∧
    setup_sensor 2 (fun st n u => (st ++ [⟨9, n, u⟩], 9)) [] "DS18B20" "°C"
      = (setup_sensor 1 (fun st n u => (st ++ [⟨9, n, u⟩], 9))
           ((fun (st : List Sensor) (n u : String) => (st ++ [⟨9, n, u⟩], (9 : Int))) [] "DS18B20" "°C").1
           "DS18B20" "°C").map (fun r => (r.1, r.2.1 + 1, r.2.2)) :=
  ⟨(C2_resolution_protocol (fun st n u => (st ++ [⟨9, n, u⟩], 9))
      (fun st n l => (st ++ [⟨9, n, l⟩], 9))).1 0 [⟨5, "DS18B20", "°C"⟩] "DS18B20" "°C"
      ⟨5, "DS18B20", "°C"⟩ (by decide),
   (C2_resolution_protocol (fun st n u => (st ++ [⟨9, n, u⟩], 9))
      (fun st n l => (st ++ [⟨9, n, l⟩], 9))).2.1 1 [] "DS18B20" "°C" (by decide)⟩

/-- Claim C3: resolving an identity already present in the remote store twice,
against that unchanged store, yields the same identifier both times and issues
zero create requests each time (in particular none on the second resolution);
the first resolution leaves the store unchanged, so the second runs against
exactly the store state the first returned.  Stated for both devices and
sensors, at any two positive fuel bounds. -/
theorem C3_idempotent_lookup
    (screate : List Sensor → String → String → List Sensor × Int)
    (dcreate : List Device → String → String → List Device × Int) :
    (∀ (fuel1 fuel2 : Nat) (st : List Sensor) (sensor_name sensor_unit : String) (d : Sensor),
       st.find? (fun s => s.name == sensor_name) = some d →
       ∃ i, setup_sensor (fuel1 + 1) screate st sensor_name sensor_unit = some (i, 0, st) ∧
            setup_sensor (fuel2 + 1) screate st sensor_name sensor_unit = some (i, 0, st)) ∧
    (∀ (fuel1 fuel2 : Nat) (st : List Device) (device_name device_location : String) (d : Device),
       st.find? (fun x => x.name == device_name && x.location == device_location) = some d →
       ∃ i, setup_device (fuel1 + 1) dcreate st device_name device_location = some (i, 0, st) ∧
            setup_device (fuel2 + 1) dcreate st device_name device_location = some (i, 0, st)) := by
  constructor
  · intro fuel1 fuel2 st sensor_name sensor_unit d h
    exact ⟨d.id, by simp [setup_sensor, h], by simp [setup_sensor, h]⟩
  · intro fuel1 fuel2 st device_name device_location d h
    exact ⟨d.id, by simp [setup_device, h], by simp [setup_device, h]⟩

/-- Witness for C3: resolving the device (esp32_stue, Stue), already stored with
id 7, twice against the unchanged one-device store. -/
theorem C3_idempotent_lookup_witness :
    ∃ i, setup_device 1 (fun st n l => (st ++ [⟨9, n, l⟩], 9))
           [⟨7, "esp32_stue", "Stue"⟩] "esp32_stue" "Stue"
           = some (i, 0, [⟨7, "esp32_stue", "Stue"⟩]) ∧
         setup_device 3 (fun st n l => (st ++ [⟨9, n, l⟩], 9))
           [⟨7, "esp32_stue", "Stue"⟩] "esp32_stue" "Stue"
           = some (i, 0, [⟨7, "esp32_stue", "Stue"⟩]) :=
  (C3_idempotent_lookup (fun st n u => (st ++ [⟨9, n, u⟩], 9))
      (fun st n l => (st ++ [⟨9, n, l⟩], 9))).2 0 2
    [⟨7, "esp32_stue", "Stue"⟩] "esp32_stue" "Stue" ⟨7, "esp32_stue", "Stue"⟩ (by decide)

/-- Claim C8: when the configured device list is empty (and the sensor-catalog
resolution that `main` runs first succeeds), `main` fails with the
no-devices-configured error, and the dispatch loop is never entered: the
outcome is the same for every event stream and zero measurement writes are
issued. -/
theorem C8_empty_device_list {ε γ : Type} (fuel : Nat)
    (screate : List Sensor → String → String → List Sensor × Int)
    (dcreate : List Device → String → String → List Device × Int)
    (sensors_st : List Sensor) (devices_st : List Device) (cfg : Config)
    (post : Measurement → Option ε) (events : List (Except γ Event))
    (hdev : cfg.devices = [])
    (hsetup : (setup_sensors fuel screate sensors_st).isSome = true) :
    main_run fuel screate dcreate sensors_st devices_st cfg post events
      = ([], .error .noDevicesConfigured) := by
  obtain ⟨v, hv⟩ := Option.isSome_iff_exists.mp hsetup
  obtain ⟨ids, st2⟩ := v
  simp [main_run, hv, hdev, setup_topic_map]

/-- Witness for C8: an empty configuration against a store with a working
create endpoint, with a nonempty (and untouched) event stream. -/
theorem C8_empty_device_list_witness :
    main_run 2 (fun st n u => (st ++ [⟨(st.length : Int) + 1, n, u⟩], 0))
      (fun st n l => (st ++ [⟨(st.length : Int) + 1, n, l⟩], 0)) [] [] ⟨[]⟩
      (fun _ => (none : Option Unit))
      ([.error 3, .ok (.incoming (.publish "tele/stue/SENSOR" (.utf8 .notJson)))] :
        List (Except Nat Event))
      = ([], .error .noDevicesConfigured) :=
  C8_empty_device_list 2 (fun st n u => (st ++ [⟨(st.length : Int) + 1, n, u⟩], 0))
    (fun st n l => (st ++ [⟨(st.length : Int) + 1, n, l⟩], 0)) [] [] ⟨[]⟩
    (fun _ => none) [.error 3, .ok (.incoming (.publish "tele/stue/SENSOR" (.utf8 .notJson)))]
    rfl (by decide)

/-- Decoding a JSON value as a string succeeds exactly on string values. -/
theorem Json.asString_eq_some {j : Json} {s : String} :
    j.asString = some s ↔ j = .str s := by
  cases j <;> simp [Json.asString]

/-- Counterexample to claim C9 as stated: a configuration entry whose `topic`
field is the empty string is accepted by the deserializer (the code performs no
non-emptiness validation; config.rs's own test accepts an empty topic), while
the claim says it must be rejected. -/
theorem C9_counterexample :
    TopicConfig.fromToml (.obj [("topic", .str ""), ("device_name", .str "test_device"),
        ("device_location", .str "Test Location")])
      = some { topic := "", device_name := "test_device",
               device_location := "Test Location" } := rfl

/-- Claim C9 (amended): a configuration entry is accepted exactly when all
three fields (`topic`, `device_name`, `device_location`) are present with
string values; an entry missing a field (or giving it a non-string value) is
rejected, but empty strings are accepted. -/
theorem C9_required_fields (fields : List (String × Json)) :
    (TopicConfig.fromToml (.obj fields)).isSome = true ↔
      ((∃ s, fields.lookup "topic" = some (.str s)) ∧
       (∃ s, fields.lookup "device_name" = some (.str s)) ∧
       (∃ s, fields.lookup "device_location" = some (.str s))) := by
  simp [TopicConfig.fromToml, Option.isSome_iff_exists, Option.bind_eq_some,
    Json.asString_eq_some]
  aesop

/-- Claim C10: a transport-level `Err` item in the connection stream is logged
and skipped — processing the stream from it equals processing the rest, so such
an item never contributes an error or a write; in particular a stream made only
of `Err` items ends the loop normally with no writes. -/
theorem C10_transport_errors_skipped {ε γ : Type} (post : Measurement → Option ε)
    (topic_to_device : List (String × DeviceId)) (sensor_ids : SensorIds) :
    (∀ (e : γ) (rest : List (Except γ Event)),
       handle_connection post (.error e :: rest) topic_to_device sensor_ids
         = handle_connection post rest topic_to_device sensor_ids) ∧
    (∀ items : List (Except γ Event),
       (∀ it ∈ items, ∃ e, it = .error e) →
       handle_connection post items topic_to_device sensor_ids = ([], none)) := by
  constructor
  · intro e rest
    rfl
  · intro items h
    induction items with
    | nil => rfl
    | cons it rest ih =>
      obtain ⟨e, rfl⟩ := h it (by simp)
      exact ih (fun x hx => h x (by simp [hx]))

/-- Witness for C10: a stream of two transport errors ends the loop normally
with zero writes. -/
theorem C10_transport_errors_skipped_witness :
    handle_connection (fun _ => (none : Option Unit))
        ([.error 3, .error 4] : List (Except Nat Event))
        [("tele/stue/SENSOR", 42)] ⟨1, 2, 3, 4⟩ = ([], none) :=
  (C10_transport_errors_skipped (fun _ => none) [("tele/stue/SENSOR", 42)] ⟨1, 2, 3, 4⟩).2
    [.error 3, .error 4]
    (by
      intro it hit
      simp only [List.mem_cons, List.not_mem_nil, or_false] at hit
      rcases hit with rfl | rfl
      · exact ⟨3, rfl⟩
      · exact ⟨4, rfl⟩)
